import Mathlib

/-!
Verification of the sqlite dataset manager (`src/src/lib.rs`) against its
natural-language specification.  The Rust source is shallowly embedded:
pure value codecs become Lean functions on `Nat` byte lists, the sqlite
table touched by the IP-map updater becomes an explicit association list,
and the registration / publication logic of the manager becomes total
functions over an inductive copy of the dataset-type enumeration.
-/

/-- Embedding of `usiem::events::field::SiemIp`: a v4 address carries a
32-bit payload, a v6 address a 128-bit payload.  Payloads are naturals;
all byte extraction is written with explicit `% 256`. -/
inductive SiemIp where
  | V4 : Nat → SiemIp
  | V6 : Nat → SiemIp
deriving DecidableEq

/-- Little-endian byte serialization of a `u32`, as produced by Rust's
`u32::to_le_bytes` in `ip_to_vec8` (byte 0 is the least significant). -/
def u32_to_le_bytes (x : Nat) : List Nat :=
  [x % 256, x / 2 ^ 8 % 256, x / 2 ^ 16 % 256, x / 2 ^ 24 % 256]

/-- Little-endian byte serialization of a `u128`, as produced by Rust's
`u128::to_le_bytes` in `ip_to_vec8` (byte 0 is the least significant). -/
def u128_to_le_bytes (x : Nat) : List Nat :=
  [x % 256, x / 2 ^ 8 % 256, x / 2 ^ 16 % 256, x / 2 ^ 24 % 256,
   x / 2 ^ 32 % 256, x / 2 ^ 40 % 256, x / 2 ^ 48 % 256, x / 2 ^ 56 % 256,
   x / 2 ^ 64 % 256, x / 2 ^ 72 % 256, x / 2 ^ 80 % 256, x / 2 ^ 88 % 256,
   x / 2 ^ 96 % 256, x / 2 ^ 104 % 256, x / 2 ^ 112 % 256, x / 2 ^ 120 % 256]

/-- Embedding of `ip_to_vec8` (lib.rs lines 1051-1056): the durable byte
encoding of an IP, `to_le_bytes().to_vec()` on either arm. -/
def ip_to_vec8 : SiemIp → List Nat
  | SiemIp.V4 v4 => u32_to_le_bytes v4
  | SiemIp.V6 v6 => u128_to_le_bytes v6

/-- Embedding of `ip_form_vec8` (lib.rs lines 1022-1049): decoding of the
durable byte encoding.  A 4-byte vector is read as a v4 payload with byte 0
shifted to the most significant position (`(v[0] as u32) << 24 | ...`), a
16-byte vector as a v6 payload with byte 0 shifted by 120, and every other
length is an error.  Out-of-range indices never occur in the source because
each arm is guarded by the exact length test mirrored here; `getD _ 0`
renders the guarded `v[i]` accesses. -/
def ip_form_vec8 (v : List Nat) : Except Unit SiemIp :=
  if v.length = 4 then
    Except.ok (SiemIp.V4
      (v.getD 0 0 <<< 24 ||| v.getD 1 0 <<< 16 ||| v.getD 2 0 <<< 8 ||| v.getD 3 0))
  else if v.length = 16 then
    Except.ok (SiemIp.V6
      (v.getD 0 0 <<< 120 ||| v.getD 1 0 <<< 112 ||| v.getD 2 0 <<< 104 |||
       v.getD 3 0 <<< 96 ||| v.getD 4 0 <<< 88 ||| v.getD 5 0 <<< 80 |||
       v.getD 6 0 <<< 72 ||| v.getD 7 0 <<< 64 ||| v.getD 8 0 <<< 56 |||
       v.getD 9 0 <<< 48 ||| v.getD 10 0 <<< 40 ||| v.getD 11 0 <<< 32 |||
       v.getD 12 0 <<< 24 ||| v.getD 13 0 <<< 16 ||| v.getD 14 0 <<< 8 |||
       v.getD 15 0))
  else Except.error ()

/-- Embedding of `usiem::components::dataset::SiemDatasetType`, restricted
to the variants the manager's `register_dataset` match handles (any other
variant falls into its catch-all arm and is never registered). -/
inductive SiemDatasetType where
  | CustomMapText : String → SiemDatasetType
  | CustomMapTextList : String → SiemDatasetType
  | CustomIpList : String → SiemDatasetType
  | CustomIpMap : String → SiemDatasetType
  | CustomMapIpNet : String → SiemDatasetType
  | CustomTextList : String → SiemDatasetType
  | Secrets : String → SiemDatasetType
  | GeoIp
  | IpHost
  | IpMac
  | IpDNS
  | MacHost
  | HostUser
  | BlockIp
  | BlockDomain
  | BlockEmailSender
  | BlockCountry
  | HostVulnerable
  | UserTag
  | AssetTag
  | IpCloudService
  | IpCloudProvider
  | UserHeadquarters
  | IpHeadquarters
  | Configuration
deriving DecidableEq

/-- The eight dataset shapes of the data model; also used to tag which
`UpdateListener` variant a listener is (`UpdateTextMap` is tagged
`TextMap`, `UpdateNetIp` is tagged `IpNet`, and so on). -/
inductive DatasetKind where
  | TextSet
  | TextMap
  | TextMapList
  | IpSet
  | IpMap
  | IpMapList
  | IpNet
  | GeoIp
deriving DecidableEq, Fintype

/-- The `UpdateListener` variant that `register_dataset` (lib.rs lines
908-1019) creates for each dataset type, read off arm by arm from its
match: every `Custom*` variant and `Secrets` get an `UpdateTextMap`
listener, the well-known tags get the variant written in their arm. -/
def registerListenerKind : SiemDatasetType → DatasetKind
  | SiemDatasetType.CustomMapText _ => DatasetKind.TextMap
  | SiemDatasetType.CustomIpList _ => DatasetKind.TextMap
  | SiemDatasetType.CustomMapIpNet _ => DatasetKind.TextMap
  | SiemDatasetType.CustomIpMap _ => DatasetKind.TextMap
  | SiemDatasetType.CustomMapTextList _ => DatasetKind.TextMap
  | SiemDatasetType.CustomTextList _ => DatasetKind.TextMap
  | SiemDatasetType.Secrets _ => DatasetKind.TextMap
  | SiemDatasetType.GeoIp => DatasetKind.GeoIp
  | SiemDatasetType.IpHost => DatasetKind.IpMap
  | SiemDatasetType.IpMac => DatasetKind.IpMap
  | SiemDatasetType.IpDNS => DatasetKind.IpMapList
  | SiemDatasetType.MacHost => DatasetKind.TextMap
  | SiemDatasetType.HostUser => DatasetKind.TextMap
  | SiemDatasetType.BlockIp => DatasetKind.IpSet
  | SiemDatasetType.BlockDomain => DatasetKind.TextSet
  | SiemDatasetType.BlockEmailSender => DatasetKind.TextSet
  | SiemDatasetType.BlockCountry => DatasetKind.TextSet
  | SiemDatasetType.HostVulnerable => DatasetKind.TextMapList
  | SiemDatasetType.UserTag => DatasetKind.TextMapList
  | SiemDatasetType.AssetTag => DatasetKind.TextMapList
  | SiemDatasetType.IpCloudService => DatasetKind.IpNet
  | SiemDatasetType.IpCloudProvider => DatasetKind.IpNet
  | SiemDatasetType.UserHeadquarters => DatasetKind.TextMap
  | SiemDatasetType.IpHeadquarters => DatasetKind.IpNet
  | SiemDatasetType.Configuration => DatasetKind.TextMap

/-- Modelled from the spec: the kind each identity determines (the data
model table of kinds and the identity-to-kind mapping).  The `usiem`
library that defines this mapping is not part of this repository, so this
definition follows the specification's words: custom tags carry their kind
in their name, `Secrets` and the blocklists are text sets, `Configuration`
and the host/user/mac maps are text maps, and so on. -/
def specKindOf : SiemDatasetType → DatasetKind
  | SiemDatasetType.CustomMapText _ => DatasetKind.TextMap
  | SiemDatasetType.CustomMapTextList _ => DatasetKind.TextMapList
  | SiemDatasetType.CustomIpList _ => DatasetKind.IpMapList
  | SiemDatasetType.CustomIpMap _ => DatasetKind.IpMap
  | SiemDatasetType.CustomMapIpNet _ => DatasetKind.IpNet
  | SiemDatasetType.CustomTextList _ => DatasetKind.TextSet
  | SiemDatasetType.Secrets _ => DatasetKind.TextSet
  | SiemDatasetType.GeoIp => DatasetKind.GeoIp
  | SiemDatasetType.IpHost => DatasetKind.IpMap
  | SiemDatasetType.IpMac => DatasetKind.IpMap
  | SiemDatasetType.IpDNS => DatasetKind.IpMapList
  | SiemDatasetType.MacHost => DatasetKind.TextMap
  | SiemDatasetType.HostUser => DatasetKind.TextMap
  | SiemDatasetType.BlockIp => DatasetKind.IpSet
  | SiemDatasetType.BlockDomain => DatasetKind.TextSet
  | SiemDatasetType.BlockEmailSender => DatasetKind.TextSet
  | SiemDatasetType.BlockCountry => DatasetKind.TextSet
  | SiemDatasetType.HostVulnerable => DatasetKind.TextMapList
  | SiemDatasetType.UserTag => DatasetKind.TextMapList
  | SiemDatasetType.AssetTag => DatasetKind.TextMapList
  | SiemDatasetType.IpCloudService => DatasetKind.IpNet
  | SiemDatasetType.IpCloudProvider => DatasetKind.IpNet
  | SiemDatasetType.UserHeadquarters => DatasetKind.TextMap
  | SiemDatasetType.IpHeadquarters => DatasetKind.IpNet
  | SiemDatasetType.Configuration => DatasetKind.TextMap

/-- The publication action `get_datasets` (lib.rs lines 565-900) performs
for one registered entry, read off arm by arm from its per-type match:
given the dataset type and the kind of the registered listener, the key
and snapshot kind it inserts into the shared `DATASETS` map, or `none`
when the arm only ensures the schema (or when the listener kind does not
match the variant the arm requires, in which case its inner match falls
through without inserting). -/
def get_datasets_entry (dt : SiemDatasetType) (lk : DatasetKind) :
    Option (SiemDatasetType × DatasetKind) :=
  match dt with
  | SiemDatasetType.CustomMapText _ => none
  | SiemDatasetType.CustomMapTextList _ => none
  | SiemDatasetType.CustomIpList _ => none
  | SiemDatasetType.CustomIpMap _ => none
  | SiemDatasetType.CustomMapIpNet _ => none
  | SiemDatasetType.CustomTextList name =>
    match lk with
    | DatasetKind.TextSet =>
      some (SiemDatasetType.CustomTextList name, DatasetKind.TextSet)
    | _ => none
  | SiemDatasetType.Secrets name =>
    match lk with
    | DatasetKind.TextSet =>
      some (SiemDatasetType.CustomTextList name, DatasetKind.TextSet)
    | _ => none
  | SiemDatasetType.AssetTag => none
  | SiemDatasetType.BlockCountry =>
    match lk with
    | DatasetKind.TextSet => some (SiemDatasetType.BlockCountry, DatasetKind.TextSet)
    | _ => none
  | SiemDatasetType.BlockDomain =>
    match lk with
    | DatasetKind.TextSet => some (SiemDatasetType.BlockDomain, DatasetKind.TextSet)
    | _ => none
  | SiemDatasetType.BlockEmailSender =>
    match lk with
    | DatasetKind.TextSet =>
      some (SiemDatasetType.BlockEmailSender, DatasetKind.TextSet)
    | _ => none
  | SiemDatasetType.BlockIp =>
    match lk with
    | DatasetKind.IpSet => some (SiemDatasetType.BlockIp, DatasetKind.IpSet)
    | _ => none
  | SiemDatasetType.Configuration =>
    match lk with
    | DatasetKind.TextMap => some (SiemDatasetType.Configuration, DatasetKind.TextMap)
    | _ => none
  | SiemDatasetType.GeoIp => none
  | SiemDatasetType.HostUser =>
    match lk with
    | DatasetKind.TextMap => some (SiemDatasetType.HostUser, DatasetKind.TextMap)
    | _ => none
  | SiemDatasetType.HostVulnerable =>
    match lk with
    | DatasetKind.TextMapList =>
      some (SiemDatasetType.HostVulnerable, DatasetKind.TextMapList)
    | _ => none
  | SiemDatasetType.IpCloudProvider =>
    match lk with
    | DatasetKind.IpNet => some (SiemDatasetType.IpCloudProvider, DatasetKind.IpNet)
    | _ => none
  | SiemDatasetType.IpCloudService =>
    match lk with
    | DatasetKind.IpNet => some (SiemDatasetType.IpCloudService, DatasetKind.IpNet)
    | _ => none
  | SiemDatasetType.IpDNS => none
  | SiemDatasetType.IpHeadquarters => none
  | SiemDatasetType.IpHost =>
    match lk with
    | DatasetKind.IpMap => some (SiemDatasetType.IpHost, DatasetKind.IpMap)
    | _ => none
  | SiemDatasetType.IpMac =>
    match lk with
    | DatasetKind.IpMap => some (SiemDatasetType.IpMac, DatasetKind.IpMap)
    | _ => none
  | SiemDatasetType.MacHost =>
    match lk with
    | DatasetKind.TextMap => some (SiemDatasetType.MacHost, DatasetKind.TextMap)
    | _ => none
  | SiemDatasetType.UserHeadquarters =>
    match lk with
    | DatasetKind.TextMap =>
      some (SiemDatasetType.UserHeadquarters, DatasetKind.TextMap)
    | _ => none
  | SiemDatasetType.UserTag =>
    match lk with
    | DatasetKind.TextMapList => some (SiemDatasetType.UserTag, DatasetKind.TextMapList)
    | _ => none

/-- Embedding of `create_map_text` (lib.rs lines 95-97): the SQL text the
manager executes to create a text-map table, with the dataset name
interpolated directly into the statement by string formatting. -/
def create_map_text (name : String) : String :=
  "CREATE TABLE IF NOT EXISTS dataset_" ++ name ++
    " (id INTEGER PRIMARY KEY AUTOINCREMENT, data_key TEXT NOT NULL UNIQUE, data_val TEXT NOT NULL);CREATE UNIQUE INDEX IF NOT EXISTS idx_" ++
    name ++ "_data_key ON dataset_" ++ name ++ " (data_key);"

/-- A character allowed by the specification's dataset-name pattern. -/
def isWordChar (c : Char) : Bool :=
  c.isAlpha || c.isDigit || c = Char.ofNat 95

/-- Modelled from the spec: the validation `[A-Za-z0-9_]+` that the
specification requires every dataset name to pass before it is
interpolated into SQL text.  No such check exists anywhere in the source. -/
def isValidDatasetName (s : String) : Bool :=
  s.length > 0 && s.toList.all isWordChar

/-- The durable `dataset_<name>` table of an IP-map dataset: the rows in
insertion order, each holding the BLOB key (`ip_to_vec8` bytes) and the
text value.  The schema (`create_map_ip`, lib.rs line 204) puts a UNIQUE
constraint on `data_key`. -/
abbrev IpMapTable := List (List Nat × String)

/-- Embedding of `usiem`'s `UpdateIpMap` mutation message.  `Replace`
carries the whole replacement dataset as key/value pairs. -/
inductive UpdateIpMap where
  | Add : SiemIp → String → UpdateIpMap
  | Remove : SiemIp → UpdateIpMap
  | Replace : List (SiemIp × String) → UpdateIpMap
deriving DecidableEq

/-- Whether a row with the given BLOB key exists (the UNIQUE index on
`data_key`). -/
def hasKey (t : IpMapTable) (k : List Nat) : Bool :=
  t.any (fun r => r.1 == k)

/-- `DELETE FROM dataset_<name> WHERE data_key = ?1 LIMIT 1`: removes the
first row carrying the key, if any. -/
def deleteFirstKey : IpMapTable → List Nat → IpMapTable
  | [], _ => []
  | r :: rest, k => if r.1 == k then rest else r :: deleteFirstKey rest k

/-- Embedding of `update_map_ip` (lib.rs lines 206-234) as a transition on
the durable table.  `Add` is the INSERT, which the UNIQUE constraint on
`data_key` makes fail when the key is already present (a failed statement
leaves the table unchanged); `Remove` is the single-row DELETE; `Replace`
executes only `DELETE FROM dataset_<name>` — the source inserts nothing
after the delete, so the replacement rows are discarded. -/
def update_map_ip (t : IpMapTable) (u : UpdateIpMap) : Except Unit IpMapTable :=
  match u with
  | UpdateIpMap.Add ip txt =>
    if hasKey t (ip_to_vec8 ip) then Except.error ()
    else Except.ok (t ++ [(ip_to_vec8 ip, txt)])
  | UpdateIpMap.Remove ip => Except.ok (deleteFirstKey t (ip_to_vec8 ip))
  | UpdateIpMap.Replace _ => Except.ok []

/-- Result of draining one dataset's inbox in the update loop. -/
structure DrainResult where
  table : IpMapTable
  dirty : Bool
deriving DecidableEq

/-- Embedding of the drain loop of `run` for one IpMap dataset (lib.rs
lines 320-340): each queued update is applied with its result discarded
(`let _ = self.update_map_ip(...)`), and the dataset is inserted into
`updated_datasets` after every received update, whether or not the apply
succeeded. -/
def drainPass : IpMapTable → List UpdateIpMap → DrainResult
  | t, [] => ⟨t, false⟩
  | t, u :: rest =>
    let t2 := match update_map_ip t u with
      | Except.ok t2 => t2
      | Except.error _ => t
    ⟨(drainPass t2 rest).table, true⟩

/-- The per-listener state the registry keeps between iterations: the
`i64` timestamp stored in the `UpdateListener` variant. -/
structure ListenerState where
  lastFlush : Int
deriving DecidableEq

/-- Everything one iteration of `run` leaves behind for one dataset. -/
structure IterationResult where
  listener : ListenerState
  table : IpMapTable
  inbox : List UpdateIpMap
  dirty : Bool
deriving DecidableEq

/-- Embedding of one iteration of `run` (lib.rs lines 305-563) restricted
to a single registered IpMap dataset.  The inbox is drained only when
`(*t + 5000) < time` (lib.rs line 321); a drained inbox is left empty; in
the rebuild pass over `updated_datasets` the listener timestamp is set to
this iteration's `time` (lib.rs line 415) before the snapshot reload. -/
def runIterationIpMap (now : Int) (st : ListenerState) (table : IpMapTable)
    (inbox : List UpdateIpMap) : IterationResult :=
  if st.lastFlush + 5000 < now then
    let r := drainPass table inbox
    ⟨if r.dirty then ⟨now⟩ else st, r.table, [], r.dirty⟩
  else ⟨st, table, inbox, false⟩

/-- A registered listener as `register_dataset` builds it: the variant
kind, the channel pair (abstracted to the identifier of the freshly
created bounded channel), and the creation timestamp. -/
structure Listener where
  kind : DatasetKind
  chan : Nat
  lastFlush : Int
deriving DecidableEq

/-- Association-list lookup in the `registered_datasets` map. -/
def lookupListener : List (SiemDatasetType × Listener) → SiemDatasetType → Option Listener
  | [], _ => none
  | (k, l) :: rest, dt => if k = dt then some l else lookupListener rest dt

/-- Embedding of `register_dataset` (lib.rs lines 908-1019): take the
current time, and only when `registered_datasets` does not already contain
the key, create a fresh bounded channel and insert the listener whose
variant is given by `registerListenerKind`.  `now` renders the
`chrono` timestamp and `newChan` the freshly allocated channel. -/
def register_dataset (regs : List (SiemDatasetType × Listener)) (now : Int)
    (newChan : Nat) (dt : SiemDatasetType) : List (SiemDatasetType × Listener) :=
  if (lookupListener regs dt).isSome then regs
  else regs ++ [(dt, ⟨registerListenerKind dt, newChan, now⟩)]

/-- The process-wide `DATASETS` map (lib.rs lines 45-48), with each
published snapshot abstracted to its kind. -/
abbrev DatasetsMap := List (SiemDatasetType × DatasetKind)

/-- `BTreeMap::insert` on the published map: replace the entry at the key
or append a new one. -/
def insertDataset : DatasetsMap → SiemDatasetType → DatasetKind → DatasetsMap
  | [], k, v => [(k, v)]
  | (k0, v0) :: rest, k, v =>
    if k0 = k then (k, v) :: rest else (k0, v0) :: insertDataset rest k v

/-- Lookup in the published map. -/
def lookupDataset : DatasetsMap → SiemDatasetType → Option DatasetKind
  | [], _ => none
  | (k0, v0) :: rest, k => if k0 = k then some v0 else lookupDataset rest k

/-- A manager instance: its own `registered_datasets` map.  The published
map is deliberately not a field — in the source it is the `lazy_static`
process singleton `DATASETS`, threaded through here as an explicit
argument shared by every manager of the process. -/
structure Manager where
  registered : List (SiemDatasetType × Listener)
deriving DecidableEq

/-- Embedding of `get_datasets` (lib.rs lines 565-900): for each entry of
the manager's `registered_datasets`, perform the publication action of its
arm on the process-wide map, then return that same shared map
(`Arc::clone(&DATASETS)`). -/
def get_datasets (m : Manager) (g : DatasetsMap) : DatasetsMap :=
  m.registered.foldl
    (fun acc p =>
      match get_datasets_entry p.1 p.2.kind with
      | some (key, snap) => insertDataset acc key snap
      | none => acc) g

/-- A manager that registered `IpMac` at time 0 with channel 0. -/
def managerOne : Manager :=
  ⟨register_dataset [] 0 0 SiemDatasetType.IpMac⟩

/-- A second, independently constructed manager with no registrations. -/
def managerTwo : Manager := ⟨[]⟩

/-- C1: encoding and decoding disagree on byte order.  `ip_to_vec8` writes
the little-endian bytes of the payload, but `ip_form_vec8` reads byte 0 as
the most significant byte, so the round trip through the durable encoding
returns the byte-reversed payload: `V4 1` encodes to `[1,0,0,0]` and
decodes to `V4 16777216`, not to the original value. -/
theorem ip_roundtrip_defect :
    ip_to_vec8 (SiemIp.V4 1) = [1, 0, 0, 0] ∧
    ip_form_vec8 (ip_to_vec8 (SiemIp.V4 1)) = Except.ok (SiemIp.V4 16777216) ∧
    SiemIp.V4 16777216 ≠ SiemIp.V4 1 := by
  refine ⟨rfl, rfl, by decide⟩

/-- C10: `ip_form_vec8` is total and dispatches on length alone: it
returns a v4 value exactly on 4-byte vectors, a v6 value exactly on
16-byte vectors, and an error on every other length. -/
theorem ip_form_vec8_length_dispatch (v : List Nat) :
    ((∃ x, ip_form_vec8 v = Except.ok (SiemIp.V4 x)) ↔ v.length = 4) ∧
    ((∃ x, ip_form_vec8 v = Except.ok (SiemIp.V6 x)) ↔ v.length = 16) ∧
    (ip_form_vec8 v = Except.error () ↔ (v.length ≠ 4 ∧ v.length ≠ 16)) := by
  by_cases h4 : v.length = 4
  · simp [ip_form_vec8, h4]
  · by_cases h16 : v.length = 16
    · simp [ip_form_vec8, h4, h16]
    · simp [ip_form_vec8, h4, h16]

/-- C2: the listener kind does not follow the identity's kind.
`register_dataset` creates an `UpdateTextMap` listener for a `CustomIpMap`
identity, whose kind is IpMap; a `Secrets` identity never publishes under
the `Secrets` key — with the listener `register_dataset` actually creates
its `get_datasets` arm publishes nothing at all, and even with the
text-set listener that arm expects, it publishes under the
`CustomTextList` key. -/
theorem register_listener_kind_mismatch :
    registerListenerKind (SiemDatasetType.CustomIpMap "x") = DatasetKind.TextMap ∧
    specKindOf (SiemDatasetType.CustomIpMap "x") = DatasetKind.IpMap ∧
    DatasetKind.TextMap ≠ DatasetKind.IpMap ∧
    get_datasets_entry (SiemDatasetType.Secrets "s")
      (registerListenerKind (SiemDatasetType.Secrets "s")) = none ∧
    get_datasets_entry (SiemDatasetType.Secrets "s") DatasetKind.TextSet =
      some (SiemDatasetType.CustomTextList "s", DatasetKind.TextSet) := by
  refine ⟨rfl, rfl, by decide, rfl, rfl⟩

set_option maxRecDepth 8192 in
/-- C3: no dataset-name validation exists.  A name failing the
specification's `[A-Za-z0-9_]+` pattern is interpolated verbatim into the
CREATE TABLE statement text by `create_map_text`. -/
theorem dataset_name_not_validated :
    isValidDatasetName "x; DROP TABLE dataset_y;--" = false ∧
    create_map_text "x; DROP TABLE dataset_y;--" =
      "CREATE TABLE IF NOT EXISTS dataset_x; DROP TABLE dataset_y;-- (id INTEGER PRIMARY KEY AUTOINCREMENT, data_key TEXT NOT NULL UNIQUE, data_val TEXT NOT NULL);CREATE UNIQUE INDEX IF NOT EXISTS idx_x; DROP TABLE dataset_y;--_data_key ON dataset_x; DROP TABLE dataset_y;-- (data_key);" := by
  refine ⟨rfl, rfl⟩

/-- C4: `Replace` on an IpMap dataset is only the DELETE: applying
`Replace` with a non-empty replacement dataset leaves the durable table
empty, so the replacement rows are never inserted. -/
theorem replace_map_ip_drops_rows :
    update_map_ip [(u32_to_le_bytes 1, "a")]
        (UpdateIpMap.Replace [(SiemIp.V4 2, "b")]) = Except.ok [] ∧
    ([(SiemIp.V4 2, "b")] : List (SiemIp × String)) ≠ [] := by
  refine ⟨rfl, by decide⟩

/-- C5 counterexample: a drain pass whose single update fails its apply
(the INSERT hits the UNIQUE key constraint, the table is unchanged) still
marks the dataset dirty, contradicting the claim that it is marked dirty
only when at least one drained update was applied successfully. -/
theorem dirty_without_successful_apply :
    update_map_ip [([1, 0, 0, 0], "a")] (UpdateIpMap.Add (SiemIp.V4 1) "b") =
      Except.error () ∧
    drainPass [([1, 0, 0, 0], "a")] [UpdateIpMap.Add (SiemIp.V4 1) "b"] =
      ⟨[([1, 0, 0, 0], "a")], true⟩ := by
  refine ⟨rfl, by decide⟩

/-- C5 amended: a failed apply is skipped without aborting the pass (the
table is left unchanged and the remaining updates are still processed),
and the dataset is marked dirty exactly when at least one update was
drained from its inbox, whether or not any apply succeeded. -/
theorem drain_pass_semantics (t : IpMapTable) (inbox : List UpdateIpMap)
    (u : UpdateIpMap) (rest : List UpdateIpMap) :
    ((drainPass t inbox).dirty = !inbox.isEmpty) ∧
    (update_map_ip t u = Except.error () →
      drainPass t (u :: rest) = ⟨(drainPass t rest).table, true⟩) := by
  constructor
  · cases inbox <;> simp [drainPass]
  · intro h
    simp [drainPass, h]

/-- C5 witness: the amended theorem applied to a concrete failing apply. -/
theorem drain_pass_semantics_witness :
    drainPass [([1, 0, 0, 0], "a")] [UpdateIpMap.Add (SiemIp.V4 1) "b"] =
      ⟨(drainPass [([1, 0, 0, 0], "a")] []).table, true⟩ :=
  (drain_pass_semantics [([1, 0, 0, 0], "a")] []
    (UpdateIpMap.Add (SiemIp.V4 1) "b") []).2 rfl

/-- C6 counterexample: at `now = last_flush_millis + 5000` exactly, the
update loop does not drain the inbox — the source guard is the strict
`(*t + 5000) < time`, so a non-empty inbox is left untouched although the
claim says the window has elapsed. -/
theorem no_drain_at_exact_debounce :
    runIterationIpMap 5000 ⟨0⟩ [] [UpdateIpMap.Add (SiemIp.V4 1) "a"] =
      ⟨⟨0⟩, [], [UpdateIpMap.Add (SiemIp.V4 1) "a"], false⟩ := by
  decide

/-- C6 amended: in one iteration with current time `now`, the inbox is
drained exactly when `now > last_flush_millis + 5000` (strictly later than
the debounce window's end); when it is drained it is left empty and, if
the dataset came out dirty, its `last_flush_millis` is set to this
iteration's `now`; otherwise listener, table and inbox are unchanged. -/
theorem run_iteration_debounce (now : Int) (st : ListenerState)
    (table : IpMapTable) (inbox : List UpdateIpMap) :
    (st.lastFlush + 5000 < now →
      (runIterationIpMap now st table inbox).inbox = [] ∧
      ((runIterationIpMap now st table inbox).dirty = true →
        (runIterationIpMap now st table inbox).listener.lastFlush = now)) ∧
    (¬ st.lastFlush + 5000 < now →
      runIterationIpMap now st table inbox = ⟨st, table, inbox, false⟩) := by
  constructor
  · intro h
    constructor
    · simp [runIterationIpMap, h]
    · intro hd
      by_cases hb : (drainPass table inbox).dirty
      · simp [runIterationIpMap, h, hb]
      · simp [runIterationIpMap, h, hb] at hd
  · intro h
    simp [runIterationIpMap, h]

/-- C6 witness: the amended theorem applied at `now = 5001`, one
millisecond past the window, where the inbox is drained. -/
theorem run_iteration_debounce_witness :
    (runIterationIpMap 5001 ⟨0⟩ [] [UpdateIpMap.Add (SiemIp.V4 1) "a"]).inbox = [] :=
  ((run_iteration_debounce 5001 ⟨0⟩ [] [UpdateIpMap.Add (SiemIp.V4 1) "a"]).1
    (by decide)).1

/-- C7: `get_datasets` publishes no snapshot for the `GeoIp`, `IpDNS` and
`IpHeadquarters` identities — their arms only ensure the schema, for any
listener kind whatsoever, so registration followed by `get_datasets` never
places these datasets in the returned map. -/
theorem get_datasets_unpublished_kinds :
    (∀ lk, get_datasets_entry SiemDatasetType.GeoIp lk = none) ∧
    (∀ lk, get_datasets_entry SiemDatasetType.IpDNS lk = none) ∧
    (∀ lk, get_datasets_entry SiemDatasetType.IpHeadquarters lk = none) := by
  refine ⟨fun lk => ?_, fun lk => ?_, fun lk => ?_⟩ <;> cases lk <;> rfl

/-- C8: registering an identity that is already present in
`registered_datasets` is a no-op: the map, and with it the registered
listener's channel and last-flush timestamp, is returned unchanged. -/
theorem register_dataset_idempotent (regs : List (SiemDatasetType × Listener))
    (now : Int) (newChan : Nat) (dt : SiemDatasetType)
    (h : (lookupListener regs dt).isSome = true) :
    register_dataset regs now newChan dt = regs := by
  simp [register_dataset, h]

/-- C8 witness: re-registering `IpMac` with a later time and a fresh
channel leaves the original listener entry untouched. -/
theorem register_dataset_idempotent_witness :
    register_dataset [(SiemDatasetType.IpMac, ⟨DatasetKind.IpMap, 0, 0⟩)] 7 1
      SiemDatasetType.IpMac =
      [(SiemDatasetType.IpMac, ⟨DatasetKind.IpMap, 0, 0⟩)] :=
  register_dataset_idempotent [(SiemDatasetType.IpMac, ⟨DatasetKind.IpMap, 0, 0⟩)]
    7 1 SiemDatasetType.IpMac (by decide)

/-- C9 counterexample: `DATASETS` is one process-wide map.  A manager that
registered and published `IpMac` makes it observable through the
`get_datasets` of a second, independently constructed manager with no
registrations of its own. -/
theorem cross_manager_observation :
    lookupDataset (get_datasets managerTwo (get_datasets managerOne []))
      SiemDatasetType.IpMac = some DatasetKind.IpMap := by
  decide

/-- C9 amended: the published-dataset map is process-wide and shared:
`get_datasets` of a manager with no registrations returns exactly the
shared map as left by any other manager, datasets published by that other
manager included. -/
theorem get_datasets_shared_map (m1 m2 : Manager) (g : DatasetsMap)
    (h : m2.registered = []) :
    get_datasets m2 (get_datasets m1 g) = get_datasets m1 g := by
  simp [get_datasets, h]

/-- C9 witness: the amended theorem applied to the two concrete managers. -/
theorem get_datasets_shared_map_witness :
    get_datasets managerTwo (get_datasets managerOne []) =
      get_datasets managerOne [] :=
  get_datasets_shared_map managerOne managerTwo [] rfl
